import Mathlib

/-!
# Verification of the Pregnancy-OSC core state logic

A shallow embedding of the state-bearing parts of the Pregnancy-OSC
repository (files `osc_query_cache.rs`, `pregancy_handler.rs`, `utils.rs`),
together with proofs about the metadata cache, the gestation record
operations and the avatar-detection state machine.

Modelling conventions:
* `Instant` timestamps of the cache are integer milliseconds (`Nat`);
  `Instant::duration_since` saturates at zero, which Nat subtraction mirrors.
* Wall-clock timestamps (`DateTime<Local>`) of the gestation record are
  integer seconds (`Int`); `chrono` subtraction followed by `num_seconds`
  is then exact integer subtraction.
* IEEE `f32`/`f64` arithmetic is idealised over `ℚ`; every concrete input
  used in a theorem keeps denominators away from zero so the idealisation
  agrees with the float computation of the source.
* External I/O (the HTTP GET, `serde_json::from_str`) is passed in as
  explicit arguments: the HTTP response as `Except String String` and the
  JSON parsing function as `String → Option Value`.  State mutation through
  `&mut self` becomes explicit state passing.
-/

/-! ## JSON values (`serde_json::Value`) and `utils.rs` -/

/-- Model of `serde_json::Value`. -/
inductive Value where
  | null
  | bool (b : Bool)
  | num (n : Int)
  | str (s : String)
  | arr (xs : List Value)
  | obj (fields : List (String × Value))
deriving Repr

/-- Association-list lookup used for JSON object member access. -/
def objLookup (k : String) : List (String × Value) → Option Value
  | [] => none
  | (k', v) :: rest => if k' = k then some v else objLookup k rest

/-- Splitting a pointer tail on `/`, structurally (mirrors `str::split`). -/
def splitSlash : List Char → List (List Char)
  | [] => [[]]
  | c :: rest =>
      if c = '/' then [] :: splitSlash rest
      else
        match splitSlash rest with
        | t :: ts => (c :: t) :: ts
        | [] => [[c]]

/-- First unescaping pass of a pointer token (RFC 6901): `~1` → `/`. -/
def replaceTilde1 : List Char → List Char
  | '~' :: '1' :: rest => '/' :: replaceTilde1 rest
  | c :: rest => c :: replaceTilde1 rest
  | [] => []

/-- Second unescaping pass of a pointer token (RFC 6901): `~0` → `~`. -/
def replaceTilde0 : List Char → List Char
  | '~' :: '0' :: rest => '~' :: replaceTilde0 rest
  | c :: rest => c :: replaceTilde0 rest
  | [] => []

/-- Unescaping of one JSON-pointer token, the two passes composed. -/
def tokenUnescape (tok : List Char) : String :=
  String.mk (replaceTilde0 (replaceTilde1 tok))

/-- Value of a decimal digit character. -/
def digitVal (c : Char) : Nat := c.toNat - 48

/-- Decimal value of a digit list. -/
def digitsVal (ds : List Char) : Nat :=
  ds.foldl (fun acc c => acc * 10 + digitVal c) 0

/-- `serde_json`'s pointer array-index parse: reject a leading `+` and a
redundant leading zero, otherwise require decimal digits. -/
def parseIndex (s : String) : Option Nat :=
  match s.data with
  | [] => none
  | '0' :: _ :: _ => none
  | ds => if ds.all Char.isDigit then some (digitsVal ds) else none

/-- One step of `serde_json::Value::pointer`: resolve one token. -/
def pointerStep (v : Value) (tok : String) : Option Value :=
  match v with
  | .obj fields => objLookup tok fields
  | .arr xs => (parseIndex tok).bind fun i => xs.get? i
  | _ => none

/-- Resolve a list of pointer tokens left to right. -/
def pointerWalk (v : Value) : List String → Option Value
  | [] => some v
  | tok :: rest => (pointerStep v tok).bind fun v' => pointerWalk v' rest

/-- Model of `serde_json::Value::pointer`: empty path yields the whole
document, any other path must start with `/`; the tail is split on `/`
and each token unescaped. -/
def Value.pointer (v : Value) (path : String) : Option Value :=
  match path.data with
  | [] => some v
  | '/' :: rest => pointerWalk v ((splitSlash rest).map tokenUnescape)
  | _ => none

/-- `utils.rs::json_path_exists`: `json_data.pointer(path).is_some()`. -/
def json_path_exists (json_data : Value) (path : String) : Bool :=
  (json_data.pointer path).isSome

/-- `serde_json` index by key: `json["VALUE"]` is `Null` on a non-object or
a missing key. -/
def Value.index (v : Value) (k : String) : Value :=
  match v with
  | .obj fields => (objLookup k fields).getD .null
  | _ => .null

/-- `serde_json` index by position: `json[0]` is `Null` on a non-array or
out of range. -/
def Value.indexAt (v : Value) (i : Nat) : Value :=
  match v with
  | .arr xs => (xs.get? i).getD .null
  | _ => .null

/-- `Value::as_str`. -/
def Value.as_str : Value → Option String
  | .str s => some s
  | _ => none

/-! ## The metadata cache (`osc_query_cache.rs`) -/

/-- The fields of `struct OscQueryCache`.  `last_fetched` is an `Instant`
in milliseconds. -/
structure OscQueryCache where
  last_fetched : Option Nat
  cached_data : Option Value
  avatar_id : Option String
  avatar_name : Option String
deriving Repr

/-- `OscQueryCache::new()`. -/
def OscQueryCache.new : OscQueryCache :=
  { last_fetched := none, cached_data := none, avatar_id := none, avatar_name := none }

/-- `OscQueryCache::clear_avatar`: debounced clear.  `now` is the instant
captured at entry; clearing happens only when a previous fetch timestamp
exists and lies more than 500 ms in the past. -/
def OscQueryCache.clear_avatar (now : Nat) (c : OscQueryCache) : OscQueryCache :=
  match c.last_fetched with
  | some timestamp =>
      if now - timestamp > 500 then
        { avatar_id := none, avatar_name := none, cached_data := none,
          last_fetched := some now }
      else c
  | none => c

/-- Result of `get_avatar_parameters`: successor state, returned
`Result<Value, _>`, and whether an HTTP fetch was performed. -/
structure ParamsCall where
  state : OscQueryCache
  result : Except String Value
  didFetch : Bool
deriving Repr

/-- The fetch path of `get_avatar_parameters` (the code after the
freshness check): resolve the base URL, drop the cached avatar id, run the
HTTP GET, parse; a parse failure yields `Ok(Value::Null)` while an HTTP
failure propagates as `Err`. -/
def gapFetchPath (parse : String → Option Value) (base_url : Option String)
    (response : Except String String) (now : Nat) (c : OscQueryCache) : ParamsCall :=
  match base_url with
  | none => ⟨c, .ok .null, false⟩
  | some _ =>
      let c := { c with avatar_id := none }
      match response with
      | .error e => ⟨c, .error e, true⟩
      | .ok body =>
          match parse body with
          | some json =>
              ⟨{ c with last_fetched := some now, cached_data := some json },
                .ok json, true⟩
          | none => ⟨c, .ok .null, true⟩

/-- `OscQueryCache::get_avatar_parameters`: if a fetch timestamp and a
cached tree exist and the timestamp is younger than 5 s (5000 ms), return
the cached copy with no I/O; otherwise take the fetch path. -/
def OscQueryCache.get_avatar_parameters (parse : String → Option Value)
    (base_url : Option String) (response : Except String String) (now : Nat)
    (c : OscQueryCache) : ParamsCall :=
  match c.last_fetched, c.cached_data with
  | some timestamp, some data =>
      if now - timestamp < 5000 then ⟨c, .ok data, false⟩
      else gapFetchPath parse base_url response now c
  | some _, none => gapFetchPath parse base_url response now c
  | none, _ => gapFetchPath parse base_url response now c

/-- Result of `get_avatar_id`: successor state and the returned
`Result<Option<String>, _>`. -/
structure IdCall where
  state : OscQueryCache
  result : Except String (Option String)
deriving Repr

/-- `OscQueryCache::get_avatar_id`: a cached id is returned as is; with no
base URL the call returns `Ok(None)`; otherwise the HTTP GET runs, an HTTP
failure propagates as `Err`, a parse failure yields `Ok(Some(""))`, and on
success the id is extracted from `json["VALUE"][0]` and cached. -/
def OscQueryCache.get_avatar_id (parse : String → Option Value)
    (base_url : Option String) (response : Except String String)
    (c : OscQueryCache) : IdCall :=
  match c.avatar_id with
  | some avatar_id => ⟨c, .ok (some avatar_id)⟩
  | none =>
      match base_url with
      | none => ⟨c, .ok none⟩
      | some _ =>
          match response with
          | .error e => ⟨c, .error e⟩
          | .ok body =>
              match parse body with
              | some json =>
                  let id := ((json.index "VALUE").indexAt 0).as_str
                  ⟨{ c with avatar_id := id }, .ok id⟩
              | none => ⟨c, .ok (some "")⟩

example : json_path_exists (.obj [("CONTENTS", .obj [("PregnancySave", .null)])])
    "/CONTENTS/PregnancySave" = true := by decide

example : json_path_exists (.obj [("CONTENTS", .obj [("Other", .null)])])
    "/CONTENTS/PregnancySave" = false := by decide

/-! ## The gestation record (`pregancy_handler.rs`) -/

/-- `enum GestationType` with its `#[repr(u8)]` discriminants 0..=4. -/
inductive GestationType where
  | Hours
  | Days
  | Weeks
  | Months
  | Mins
deriving DecidableEq, Repr

/-- The `u8` discriminant (`impl From<GestationType> for u8` / `i32`). -/
def GestationType.toU8 : GestationType → Nat
  | .Hours => 0
  | .Days => 1
  | .Weeks => 2
  | .Months => 3
  | .Mins => 4

/-- `GestationType::seconds_per_unit` (Months is a 30-day approximation). -/
def GestationType.seconds_per_unit : GestationType → Int
  | .Hours => 3600
  | .Days => 86400
  | .Weeks => 604800
  | .Months => 2592000
  | .Mins => 60

/-- `impl TryFrom<u8> for GestationType`. -/
def GestationType.tryFrom (value : Nat) : Option GestationType :=
  match value with
  | 0 => some .Hours
  | 1 => some .Days
  | 2 => some .Weeks
  | 3 => some .Months
  | 4 => some .Mins
  | _ => none

/-- `struct ChildInfo`.  `conception_time` is a wall-clock timestamp in
whole seconds; `gestation_time : f32` is idealised over `ℚ`;
`number_of_childern : u8` is a `Nat` (every operation keeps it in range). -/
structure ChildInfo where
  conception_time : Option Int
  gestation_time : ℚ
  gestation : GestationType
  number_of_childern : Nat
deriving DecidableEq, Repr

/-- `impl Default for ChildInfo`: no conception, 8 hours, zero children. -/
def ChildInfo.default : ChildInfo :=
  { conception_time := none, gestation_time := 8, gestation := .Hours,
    number_of_childern := 0 }

/-! The global `ChildData: Mutex<Option<ChildInfo>>` cell and its accessors.
Each accessor takes and returns the cell's contents explicitly. -/

/-- `get_child_count`: reads through `unwrap_or_default`. -/
def get_child_count (d : Option ChildInfo) : Nat :=
  (d.getD ChildInfo.default).number_of_childern

/-- `set_child_count`: mutates only when the cell holds a record. -/
def set_child_count (value : Nat) (d : Option ChildInfo) : Option ChildInfo :=
  d.map fun c => { c with number_of_childern := value }

/-- `get_conception_time`: reads through `unwrap_or_default`. -/
def get_conception_time (d : Option ChildInfo) : Option Int :=
  (d.getD ChildInfo.default).conception_time

/-- `set_conception_time`. -/
def set_conception_time (value : Int) (d : Option ChildInfo) : Option ChildInfo :=
  d.map fun c => { c with conception_time := some value }

/-- `clear_conception_time`. -/
def clear_conception_time (d : Option ChildInfo) : Option ChildInfo :=
  d.map fun c => { c with conception_time := none }

/-- `get_gestation_time`: reads through `unwrap_or_default`. -/
def get_gestation_time (d : Option ChildInfo) : ℚ :=
  (d.getD ChildInfo.default).gestation_time

/-- `set_gestation_time`. -/
def set_gestation_time (value : ℚ) (d : Option ChildInfo) : Option ChildInfo :=
  d.map fun c => { c with gestation_time := value }

/-- `get_gestation_type`: the source's `GestationType::try_from` on an
already-typed `GestationType` is the identity conversion, so this reads
the field through `unwrap_or_default`. -/
def get_gestation_type (d : Option ChildInfo) : GestationType :=
  (d.getD ChildInfo.default).gestation

/-- `set_gestation_type`: validate the raw `u8` against the enum, falling
back to `Hours` on an out-of-range value. -/
def set_gestation_type (value : Nat) (d : Option ChildInfo) : Option ChildInfo :=
  d.map fun c => { c with gestation := (GestationType.tryFrom value).getD .Hours }

/-- `child_counter`: the inbound child-count handler.  Applies only an
increase; stamps the conception time to `now` when it is unset. -/
def child_counter (now : Int) (value : Nat) (d : Option ChildInfo) : Option ChildInfo :=
  if value > get_child_count d then
    let d := set_child_count value d
    if get_conception_time d = none then set_conception_time now d else d
  else d

/-- The `Add Child` button handler of `PregUI::update`: stamp the
conception time when unset, then increase the count while below 12. -/
def add_child (now : Int) (d : Option ChildInfo) : Option ChildInfo :=
  let child_count := get_child_count d
  let d := if get_conception_time d = none then set_conception_time now d else d
  if child_count < 12 then set_child_count (child_count + 1) d else d

/-- The `Remove Child` button handler of `PregUI::update`: on a non-zero
count, clear the conception time when the count is 1, then decrease. -/
def remove_child (d : Option ChildInfo) : Option ChildInfo :=
  let child_count := get_child_count d
  if child_count ≠ 0 then
    let d := if child_count = 1 then clear_conception_time d else d
    set_child_count (child_count - 1) d
  else d

/-- `get_gestation_progress_fraction`: 0 on zero count or unset conception
time, otherwise the elapsed seconds over the total gestation seconds,
capped above at 1 by `f64::min` (there is no cap below at 0). -/
def get_gestation_progress_fraction (now : Int) (d : Option ChildInfo) : ℚ :=
  if get_child_count d = 0 then 0
  else
    let total_duration_secs : ℚ :=
      get_gestation_time d * ((get_gestation_type d).seconds_per_unit : ℚ)
    match get_conception_time d with
    | none => 0
    | some conception_time =>
        let elapsed_secs : ℚ := ((now - conception_time : Int) : ℚ)
        min (elapsed_secs / total_duration_secs) 1

/-! ## Wire parsing for the `Gestation` branch of `PregancyHandler::handle` -/

/-- `str::parse::<u8>`: optional leading `+`, then decimal digits, value
at most 255. -/
def parseU8 (s : String) : Option Nat :=
  let ds := match s.data with
    | '+' :: rest => rest
    | l => l
  if ds ≠ [] ∧ ds.all Char.isDigit then
    if digitsVal ds ≤ 255 then some (digitsVal ds) else none
  else none

/-- The `"/avatar/parameters/Gestation"` branch of
`PregancyHandler::handle`: while active, `osc_value.parse::<u8>().unwrap()`
feeds `set_gestation_type`.  The outer `Option` models panic: `none` is the
`unwrap` panic on a value that does not parse as `u8`. -/
def handle_gestation_branch (active : Bool) (osc_value : String)
    (d : Option ChildInfo) : Option (Option ChildInfo) :=
  if active then
    match parseU8 osc_value with
    | some value => some (set_gestation_type value d)
    | none => none
  else some d

example : parseU8 "3" = some 3 := by decide
example : parseU8 "300" = none := by decide
example : parseU8 "3.5" = none := by decide

/-! ## The save store and `check_avatar_oscquery` -/

/-- `struct SaveData`: the avatar-id → record map, as an association list
(`HashMap` with `entry`/`or_insert` access). -/
structure SaveData where
  avatar_ids : List (String × ChildInfo)
deriving DecidableEq, Repr

/-- Association-list lookup for the save store. -/
def assocLookup (k : String) : List (String × ChildInfo) → Option ChildInfo
  | [] => none
  | (k', v) :: rest => if k' = k then some v else assocLookup k rest

/-- Map lookup in the save store. -/
def SaveData.lookup (s : SaveData) (k : String) : Option ChildInfo :=
  assocLookup k s.avatar_ids

/-- `HashMap::entry(k).or_insert(dflt)`: the present record, or the
default inserted and returned. -/
def SaveData.entryOrInsert (s : SaveData) (k : String) (dflt : ChildInfo) :
    ChildInfo × SaveData :=
  match s.lookup k with
  | some c => (c, s)
  | none => (dflt, ⟨s.avatar_ids ++ [(k, dflt)]⟩)

/-- A typed OSC argument (`rosc::OscType`), floats idealised over `ℚ`. -/
inductive OscValue where
  | float (q : ℚ)
  | int (n : Int)
  | bool (b : Bool)
deriving DecidableEq, Repr

/-- Outcome of `check_avatar_oscquery` on an already-fetched parameter
tree: the new activity flag, the new `ChildData` cell, the save store as
written back, and the outbound messages sent (address, argument), in
order. -/
structure AvatarCheck where
  system_active : Bool
  child_data : Option ChildInfo
  store : SaveData
  messages : List (String × OscValue)
deriving Repr

/-- `check_avatar_oscquery`, modelled on the fetched tree, the current
avatar id, and the save store read from disk.  When the expected subtree
path exists: load (or default-insert) the record, go active, and send the
corrective messages — gestation duration and unit always, child count and
the is-pregnant flag only on a positive count.  Otherwise: go inactive,
clear the record, send nothing, leave the store alone. -/
def check_avatar_oscquery (tree : Value) (avatar_id : String) (store : SaveData) :
    AvatarCheck :=
  if json_path_exists tree "/CONTENTS/PregnancySave" then
    let loaded := store.entryOrInsert avatar_id
      { conception_time := none, gestation_time := 8, gestation := .Hours,
        number_of_childern := 0 }
    let d := some loaded.1
    let gestation_time := get_gestation_time d
    let gestation_type := get_gestation_type d
    let child_count := get_child_count d
    { system_active := true
      child_data := d
      store := loaded.2
      messages :=
        [("/avatar/parameters/GestationTime", .float gestation_time),
         ("/avatar/parameters/Gestation", .int (gestation_type.toU8 : Int))] ++
        (if 0 < child_count then
          [("/avatar/parameters/ChildCount", .int (child_count : Int)),
           ("/avatar/parameters/IsPregnant", .bool true)]
        else []) }
  else
    { system_active := false, child_data := none, store := store, messages := [] }

/-! ## Claims about the metadata cache -/

/-- C9: with a recorded last-fetch timestamp, `clear_avatar` is a no-op
within 500 ms of that timestamp; past 500 ms it clears the cached avatar
id, avatar name and parameter tree and stamps the clear instant as the new
last-fetched time. -/
theorem C9_clear_avatar_debounce (c : OscQueryCache) (ts now : Nat)
    (h : c.last_fetched = some ts) :
    (now - ts ≤ 500 → OscQueryCache.clear_avatar now c = c) ∧
    (now - ts > 500 →
      OscQueryCache.clear_avatar now c =
        { avatar_id := none, avatar_name := none, cached_data := none,
          last_fetched := some now }) := by
  constructor <;> intro h2 <;> simp [OscQueryCache.clear_avatar, h] <;> omega

theorem C9_clear_avatar_debounce_witness :
    OscQueryCache.clear_avatar 400
        ⟨some 0, some .null, some "avtr", some "name"⟩ =
      ⟨some 0, some .null, some "avtr", some "name"⟩ ∧
    OscQueryCache.clear_avatar 600
        ⟨some 0, some .null, some "avtr", some "name"⟩ =
      ⟨some 600, none, none, none⟩ :=
  ⟨(C9_clear_avatar_debounce _ 0 400 rfl).1 (by decide),
   (C9_clear_avatar_debounce _ 0 600 rfl).2 (by decide)⟩

/-- C10: with no recorded fetch (`last_fetched = none`), `clear_avatar`
leaves the whole cache state unchanged, whatever the current instant. -/
theorem C10_clear_avatar_never_fetched_noop (c : OscQueryCache) (now : Nat)
    (h : c.last_fetched = none) :
    OscQueryCache.clear_avatar now c = c := by
  simp [OscQueryCache.clear_avatar, h]

theorem C10_clear_avatar_never_fetched_noop_witness :
    OscQueryCache.clear_avatar 1000000
        ⟨none, some .null, some "avtr", some "name"⟩ =
      ⟨none, some .null, some "avtr", some "name"⟩ :=
  C10_clear_avatar_never_fetched_noop _ 1000000 rfl

/-- C6: a `get_avatar_parameters` call less than 5 s after a successful
fetch returns exactly the cached value, performs no fetch and leaves the
state unchanged; a call at 5 s or later (with the metadata base URL known)
performs a fetch and, on HTTP plus parse success, updates `last_fetched`
and the cached value to the new tree before returning it. -/
theorem C6_parameter_cache_window (parse : String → Option Value)
    (base_url : Option String) (response : Except String String)
    (c : OscQueryCache) (ts now : Nat) (data : Value)
    (hts : c.last_fetched = some ts) (hdata : c.cached_data = some data) :
    (now - ts < 5000 →
      OscQueryCache.get_avatar_parameters parse base_url response now c =
        ⟨c, .ok data, false⟩) ∧
    (5000 ≤ now - ts → ∀ u, base_url = some u →
      (OscQueryCache.get_avatar_parameters parse base_url response now c).didFetch
          = true ∧
      ∀ body json, response = .ok body → parse body = some json →
        OscQueryCache.get_avatar_parameters parse base_url response now c =
          ⟨{ c with
              avatar_id := none
              last_fetched := some now
              cached_data := some json }, .ok json, true⟩) := by
  constructor
  · intro hlt
    simp [OscQueryCache.get_avatar_parameters, hts, hdata, hlt]
  · intro hge u hu
    have hnlt : ¬ (now - ts < 5000) := by omega
    constructor
    · simp only [OscQueryCache.get_avatar_parameters, hts, hdata, if_neg hnlt, hu,
        gapFetchPath]
      cases response with
      | error e => rfl
      | ok body => cases h : parse body <;> simp [h]
    · intro body json hbody hjson
      simp [OscQueryCache.get_avatar_parameters, hts, hdata, hnlt, hu, hbody,
        gapFetchPath, hjson]

theorem C6_parameter_cache_window_witness :
    (OscQueryCache.get_avatar_parameters (fun _ => some .null)
        (some "http://127.0.0.1:9001") (.ok "{}") 1000
        ⟨some 0, some (.str "tree"), some "avtr", none⟩ =
      ⟨⟨some 0, some (.str "tree"), some "avtr", none⟩, .ok (.str "tree"), false⟩) ∧
    (OscQueryCache.get_avatar_parameters (fun _ => some .null)
        (some "http://127.0.0.1:9001") (.ok "{}") 6000
        ⟨some 0, some (.str "tree"), some "avtr", none⟩ =
      ⟨⟨some 6000, some .null, none, none⟩, .ok .null, true⟩) :=
  ⟨(C6_parameter_cache_window _ _ _ _ 0 1000 _ rfl rfl).1 (by decide),
   ((C6_parameter_cache_window _ _ _ _ 0 6000 _ rfl rfl).2 (by decide)
      _ rfl).2 "{}" .null rfl rfl⟩

/-- The fetch path with a known base URL always leaves `avatar_id` at
`None`, whatever the HTTP and parse outcomes. -/
theorem gapFetchPath_avatar_id (parse : String → Option Value) (u : String)
    (response : Except String String) (now : Nat) (c : OscQueryCache) :
    (gapFetchPath parse (some u) response now c).state.avatar_id = none := by
  simp only [gapFetchPath]
  cases response with
  | error e => rfl
  | ok body => cases h : parse body <;> simp [h]

/-- The fetch path with no base URL returns `Null` untouched, no fetch. -/
theorem gapFetchPath_no_url (parse : String → Option Value)
    (response : Except String String) (now : Nat) (c : OscQueryCache) :
    gapFetchPath parse none response now c = ⟨c, .ok .null, false⟩ := rfl

/-- C2 (counterexample): an HTTP fetch failure is propagated as an error
by both metadata fetches, contradicting the claim that a fetch failure
never propagates an error to the caller. -/
theorem C2_counterexample :
    (OscQueryCache.get_avatar_parameters (fun _ => some .null)
        (some "http://127.0.0.1:9001") (.error "connection refused") 0
        OscQueryCache.new).result = .error "connection refused" ∧
    (OscQueryCache.get_avatar_id (fun _ => some .null)
        (some "http://127.0.0.1:9001") (.error "connection refused")
        OscQueryCache.new).result = .error "connection refused" :=
  ⟨rfl, rfl⟩

/-- C2 amended: a response parse failure never propagates — the parameter
fetch returns `Ok(Null)` and the id fetch returns `Ok(Some(""))` — but an
HTTP fetch failure is logged and returned as `Err` to the caller by both
fetches. -/
theorem C2_amended_parse_soft_http_hard (parse : String → Option Value)
    (u body e : String) (now : Nat) (c : OscQueryCache)
    (hlf : c.last_fetched = none) (hid : c.avatar_id = none) :
    (parse body = none →
      (OscQueryCache.get_avatar_parameters parse (some u) (.ok body) now c).result
          = .ok .null ∧
      (OscQueryCache.get_avatar_id parse (some u) (.ok body) c).result
          = .ok (some "")) ∧
    ((OscQueryCache.get_avatar_parameters parse (some u) (.error e) now c).result
        = .error e ∧
      (OscQueryCache.get_avatar_id parse (some u) (.error e) c).result
        = .error e) := by
  refine ⟨fun hparse => ⟨?_, ?_⟩, ?_, ?_⟩ <;>
    simp [OscQueryCache.get_avatar_parameters, OscQueryCache.get_avatar_id,
      hlf, hid, gapFetchPath, *]

theorem C2_amended_parse_soft_http_hard_witness :
    ((OscQueryCache.get_avatar_parameters (fun _ => none)
        (some "http://127.0.0.1:9001") (.ok "not json") 0
        OscQueryCache.new).result = .ok .null ∧
      (OscQueryCache.get_avatar_id (fun _ => none)
        (some "http://127.0.0.1:9001") (.ok "not json")
        OscQueryCache.new).result = .ok (some "")) ∧
    ((OscQueryCache.get_avatar_parameters (fun _ => none)
        (some "http://127.0.0.1:9001") (.error "timed out") 0
        OscQueryCache.new).result = .error "timed out" ∧
      (OscQueryCache.get_avatar_id (fun _ => none)
        (some "http://127.0.0.1:9001") (.error "timed out")
        OscQueryCache.new).result = .error "timed out") :=
  ⟨(C2_amended_parse_soft_http_hard (fun _ => none) _ "not json" "timed out" 0
      OscQueryCache.new rfl rfl).1 rfl,
   (C2_amended_parse_soft_http_hard (fun _ => none) _ "not json" "timed out" 0
      OscQueryCache.new rfl rfl).2⟩

/-- C3 (counterexample): a routine `get_avatar_parameters` poll that goes
to the network does NOT leave the cached avatar id unchanged — the fetch
path resets it to `None`. -/
theorem C3_counterexample :
    (OscQueryCache.get_avatar_parameters (fun _ => some .null)
        (some "http://127.0.0.1:9001") (.ok "{}") 6000
        ⟨some 0, some .null, some "avtr_abc", none⟩).state.avatar_id ≠
      (⟨some 0, some .null, some "avtr_abc", none⟩ : OscQueryCache).avatar_id := by
  decide

/-- C3 amended: `get_avatar_parameters` leaves the cached avatar id
unchanged only on a fresh cache hit (younger than 5 s) or when no metadata
base URL is known; whenever the call proceeds to a network fetch it clears
the cached avatar id to `None`. -/
theorem C3_amended_poll_clears_avatar_id (parse : String → Option Value)
    (base_url : Option String) (response : Except String String) (now : Nat)
    (c : OscQueryCache) :
    (∀ ts data, c.last_fetched = some ts → c.cached_data = some data →
      now - ts < 5000 →
      (OscQueryCache.get_avatar_parameters parse base_url response now c).state.avatar_id
        = c.avatar_id) ∧
    (base_url = none →
      (OscQueryCache.get_avatar_parameters parse base_url response now c).state.avatar_id
        = c.avatar_id) ∧
    ((OscQueryCache.get_avatar_parameters parse base_url response now c).didFetch
        = true →
      (OscQueryCache.get_avatar_parameters parse base_url response now c).state.avatar_id
        = none) := by
  refine ⟨fun ts data h1 h2 h3 => ?_, fun hurl => ?_, fun hfetch => ?_⟩
  · simp [OscQueryCache.get_avatar_parameters, h1, h2, h3]
  · subst hurl
    cases h1 : c.last_fetched <;> cases h2 : c.cached_data <;>
      simp [OscQueryCache.get_avatar_parameters, h1, h2, gapFetchPath_no_url] <;>
      split <;> simp [gapFetchPath_no_url]
  · cases hurl : base_url with
    | none =>
        subst hurl
        exfalso
        revert hfetch
        cases h1 : c.last_fetched <;> cases h2 : c.cached_data <;>
          simp [OscQueryCache.get_avatar_parameters, h1, h2, gapFetchPath_no_url] <;>
          split <;> simp [gapFetchPath_no_url]
    | some u =>
        subst hurl
        cases h1 : c.last_fetched with
        | none =>
            simpa [OscQueryCache.get_avatar_parameters, h1] using
              gapFetchPath_avatar_id parse u response now c
        | some ts =>
            cases h2 : c.cached_data with
            | none =>
                simpa [OscQueryCache.get_avatar_parameters, h1, h2] using
                  gapFetchPath_avatar_id parse u response now c
            | some data =>
                by_cases hlt : now - ts < 5000
                · exfalso
                  simp [OscQueryCache.get_avatar_parameters, h1, h2, hlt] at hfetch
                · simpa [OscQueryCache.get_avatar_parameters, h1, h2, hlt] using
                    gapFetchPath_avatar_id parse u response now c

theorem C3_amended_poll_clears_avatar_id_witness :
    ((OscQueryCache.get_avatar_parameters (fun _ => some .null)
        (some "http://127.0.0.1:9001") (.ok "{}") 1000
        ⟨some 0, some .null, some "avtr_abc", none⟩).state.avatar_id
      = (⟨some 0, some .null, some "avtr_abc", none⟩ : OscQueryCache).avatar_id) ∧
    ((OscQueryCache.get_avatar_parameters (fun _ => some .null)
        (some "http://127.0.0.1:9001") (.ok "{}") 6000
        ⟨some 0, some .null, some "avtr_abc", none⟩).state.avatar_id = none) :=
  ⟨(C3_amended_poll_clears_avatar_id (fun _ => some .null) _ _ 1000 _).1
      0 .null rfl rfl (by decide),
   (C3_amended_poll_clears_avatar_id (fun _ => some .null) _ _ 6000 _).2.2 rfl⟩

/-! ## Claims about the gestation record -/

/-- C1 (counterexample): the derived progress fraction is NOT always in
`[0.0, 1.0]`: the code caps it above with `min(·, 1.0)` but never below at
0, so a conception time in the future of `now` yields a negative fraction
(here `-1/288`). -/
theorem C1_counterexample :
    get_gestation_progress_fraction 0
      (some { conception_time := some 100, gestation_time := 8,
              gestation := .Hours, number_of_childern := 1 }) < 0 := by
  norm_num [get_gestation_progress_fraction, get_child_count,
    get_conception_time, get_gestation_time, get_gestation_type,
    GestationType.seconds_per_unit, min_def]

/-- C1 amended: the fraction equals `min(elapsed/total, 1.0)` — clamped
above only.  It is 0 on zero child count or unset conception time, never
exceeds 1, and for a positive total gestation duration it is non-negative
whenever `now` is at or after the conception time and is monotonically
non-decreasing in `now`. -/
theorem C1_amended_progress_fraction (d : ChildInfo) (t now now' : Int)
    (hpos : 0 < d.gestation_time * (d.gestation.seconds_per_unit : ℚ))
    (hle : now ≤ now') :
    (d.number_of_childern = 0 → get_gestation_progress_fraction now (some d) = 0) ∧
    (d.conception_time = none → get_gestation_progress_fraction now (some d) = 0) ∧
    (d.number_of_childern ≠ 0 → d.conception_time = some t →
      get_gestation_progress_fraction now (some d) =
        min (((now - t : Int) : ℚ) /
          (d.gestation_time * (d.gestation.seconds_per_unit : ℚ))) 1) ∧
    (get_gestation_progress_fraction now (some d) ≤ 1) ∧
    (d.conception_time = some t → t ≤ now →
      0 ≤ get_gestation_progress_fraction now (some d)) ∧
    (get_gestation_progress_fraction now (some d) ≤
      get_gestation_progress_fraction now' (some d)) := by
  refine ⟨fun h => ?_, fun h => ?_, fun hne hsome => ?_, ?_, fun hsome hnow => ?_, ?_⟩
  · simp [get_gestation_progress_fraction, get_child_count, h]
  · simp [get_gestation_progress_fraction, get_child_count, get_conception_time, h]
  · simp [get_gestation_progress_fraction, get_child_count, get_conception_time,
      get_gestation_time, get_gestation_type, hne, hsome]
  · by_cases h0 : d.number_of_childern = 0
    · simp [get_gestation_progress_fraction, get_child_count, h0]
    · cases hct : d.conception_time with
      | none =>
          simp [get_gestation_progress_fraction, get_child_count,
            get_conception_time, h0, hct]
      | some t' =>
          simp only [get_gestation_progress_fraction, get_child_count,
            get_conception_time, get_gestation_time, get_gestation_type,
            Option.getD_some, h0, hct, if_neg h0]
          exact min_le_right _ 1
  · by_cases h0 : d.number_of_childern = 0
    · simp [get_gestation_progress_fraction, get_child_count, h0]
    · simp only [get_gestation_progress_fraction, get_child_count,
        get_conception_time, get_gestation_time, get_gestation_type,
        Option.getD_some, h0, hsome, if_neg h0]
      refine le_min (div_nonneg ?_ hpos.le) zero_le_one
      have : (0 : Int) ≤ now - t := by omega
      exact_mod_cast this
  · by_cases h0 : d.number_of_childern = 0
    · simp [get_gestation_progress_fraction, get_child_count, h0]
    · cases hct : d.conception_time with
      | none =>
          simp [get_gestation_progress_fraction, get_child_count,
            get_conception_time, h0, hct]
      | some t' =>
          simp only [get_gestation_progress_fraction, get_child_count,
            get_conception_time, get_gestation_time, get_gestation_type,
            Option.getD_some, h0, hct, if_neg h0]
          refine min_le_min ?_ le_rfl
          refine (div_le_div_iff_of_pos_right hpos).2 ?_
          have : now - t' ≤ now' - t' := by omega
          exact_mod_cast this

theorem C1_amended_progress_fraction_witness :
    (get_gestation_progress_fraction 14400
        (some { conception_time := some 0, gestation_time := 8,
                gestation := .Hours, number_of_childern := 2 }) =
      min ((14400 : ℚ) / (8 * 3600)) 1) ∧
    (0 ≤ get_gestation_progress_fraction 14400
        (some { conception_time := some 0, gestation_time := 8,
                gestation := .Hours, number_of_childern := 2 })) ∧
    (get_gestation_progress_fraction 14400
        (some { conception_time := some 0, gestation_time := 8,
                gestation := .Hours, number_of_childern := 2 }) ≤
      get_gestation_progress_fraction 28800
        (some { conception_time := some 0, gestation_time := 8,
                gestation := .Hours, number_of_childern := 2 })) := by
  have h := C1_amended_progress_fraction
    { conception_time := some 0, gestation_time := 8, gestation := .Hours,
      number_of_childern := 2 } 0 14400 28800
    (by norm_num [GestationType.seconds_per_unit]) (by norm_num)
  refine ⟨?_, h.2.2.2.2.1 rfl (by norm_num), h.2.2.2.2.2⟩
  have := h.2.2.1 (by norm_num) rfl
  simpa [GestationType.seconds_per_unit] using this

/-- C4: conception-time discipline of the child-count operations.  An
inbound increase stamps the conception time to `now` exactly when it is
unset and keeps it otherwise; an inbound non-increase is a no-op; the user
remove action keeps the conception time on counts ≥ 2, clears it exactly
when the count reaches 0, and never re-stamps it; the user add action
stamps an unset conception time to `now`. -/
theorem C4_count_changes_conception (c : ChildInfo) (now : Int) (value : Nat) :
    (value > c.number_of_childern → c.conception_time = none →
      child_counter now value (some c) =
        some { c with number_of_childern := value, conception_time := some now }) ∧
    (value > c.number_of_childern → ∀ t, c.conception_time = some t →
      child_counter now value (some c) =
        some { c with number_of_childern := value }) ∧
    (value ≤ c.number_of_childern → child_counter now value (some c) = some c) ∧
    (2 ≤ c.number_of_childern →
      remove_child (some c) =
        some { c with number_of_childern := c.number_of_childern - 1 }) ∧
    (c.number_of_childern = 1 →
      remove_child (some c) =
        some { c with number_of_childern := 0, conception_time := none }) ∧
    (c.number_of_childern = 0 → remove_child (some c) = some c) ∧
    (c.conception_time = none → c.number_of_childern < 12 →
      add_child now (some c) =
        some { c with
                number_of_childern := c.number_of_childern + 1
                conception_time := some now }) ∧
    (∀ t, c.conception_time = some t →
      (add_child now (some c)).map ChildInfo.conception_time = some (some t)) := by
  refine ⟨fun hgt hct => ?_, fun hgt t hct => ?_, fun hle => ?_, fun h2 => ?_,
    fun h1 => ?_, fun h0 => ?_, fun hct hlt => ?_, fun t hct => ?_⟩
  · simp [child_counter, get_child_count, get_conception_time, set_child_count,
      set_conception_time, hgt, hct]
  · simp [child_counter, get_child_count, get_conception_time, set_child_count,
      set_conception_time, hgt, hct]
  · simp [child_counter, get_child_count, Nat.not_lt.2 hle]
  · have hne : c.number_of_childern ≠ 0 := by omega
    have hne1 : c.number_of_childern ≠ 1 := by omega
    simp [remove_child, get_child_count, set_child_count, clear_conception_time,
      hne, hne1]
  · simp [remove_child, get_child_count, set_child_count, clear_conception_time, h1]
  · simp [remove_child, get_child_count, h0]
  · simp [add_child, get_child_count, get_conception_time, set_child_count,
      set_conception_time, hct, hlt]
  · by_cases hlt : c.number_of_childern < 12 <;>
      simp [add_child, get_child_count, get_conception_time, set_child_count,
        set_conception_time, hct, hlt]

theorem C4_count_changes_conception_witness :
    (child_counter 50 3 (some ⟨none, 8, .Hours, 0⟩) = some ⟨some 50, 8, .Hours, 3⟩) ∧
    (child_counter 50 1 (some ⟨some 7, 8, .Hours, 2⟩) = some ⟨some 7, 8, .Hours, 2⟩) ∧
    (remove_child (some ⟨some 7, 8, .Hours, 2⟩) = some ⟨some 7, 8, .Hours, 1⟩) ∧
    (remove_child (some ⟨some 7, 8, .Hours, 1⟩) = some ⟨none, 8, .Hours, 0⟩) ∧
    (add_child 50 (some ⟨none, 8, .Hours, 0⟩) = some ⟨some 50, 8, .Hours, 1⟩) :=
  ⟨(C4_count_changes_conception _ 50 3).1 (by decide) rfl,
   (C4_count_changes_conception _ 50 1).2.2.1 (by decide),
   (C4_count_changes_conception _ 50 0).2.2.2.1 (by decide),
   (C4_count_changes_conception _ 50 0).2.2.2.2.1 rfl,
   (C4_count_changes_conception _ 50 0).2.2.2.2.2.2.1 rfl (by decide)⟩

/-- The record invariant of the spec: conception time unset exactly on a
zero child count. -/
def conception_inv (c : ChildInfo) : Prop :=
  c.conception_time = none ↔ c.number_of_childern = 0

/-- The invariant lifted to the `ChildData` cell. -/
def conception_inv_opt : Option ChildInfo → Prop
  | none => True
  | some c => conception_inv c

/-- One mutation of the in-memory child record: an inbound child-count
message, a user add-child action, or a user remove-child action. -/
inductive ChildOp where
  | inbound (now : Int) (value : Nat)
  | add (now : Int)
  | remove

/-- Apply one mutation. -/
def applyChildOp (d : Option ChildInfo) : ChildOp → Option ChildInfo
  | .inbound now value => child_counter now value d
  | .add now => add_child now d
  | .remove => remove_child d

/-- Apply a sequence of mutations, oldest first. -/
def applyChildOps (d : Option ChildInfo) (ops : List ChildOp) : Option ChildInfo :=
  ops.foldl applyChildOp d

/-- Every single mutation preserves the invariant. -/
theorem conception_inv_step (d : Option ChildInfo) (op : ChildOp)
    (h : conception_inv_opt d) : conception_inv_opt (applyChildOp d op) := by
  cases d with
  | none =>
      cases op <;>
        simp only [applyChildOp, child_counter, add_child, remove_child,
          get_child_count, get_conception_time, set_child_count,
          set_conception_time, clear_conception_time, Option.map_none',
          Option.getD_none] <;>
        split <;> simp [conception_inv_opt, set_conception_time]
  | some c =>
      cases op with
      | inbound now value =>
          by_cases hgt : value > c.number_of_childern
          · by_cases hct : c.conception_time = none
            · simp [applyChildOp, child_counter, get_child_count,
                get_conception_time, set_child_count, set_conception_time,
                hgt, hct, conception_inv_opt, conception_inv]
              omega
            · simp [applyChildOp, child_counter, get_child_count,
                get_conception_time, set_child_count, set_conception_time,
                hgt, hct, conception_inv_opt, conception_inv]
              omega
          · simpa [applyChildOp, child_counter, get_child_count, hgt,
              conception_inv_opt] using h
      | add now =>
          by_cases hct : c.conception_time = none
          · by_cases hlt : c.number_of_childern < 12
            · simp [applyChildOp, add_child, get_child_count,
                get_conception_time, set_child_count, set_conception_time,
                hct, hlt, conception_inv_opt, conception_inv]
            · have h' : c.conception_time = none ↔ c.number_of_childern = 0 := h
              have hc0 : c.number_of_childern = 0 := h'.mp hct
              omega
          · by_cases hlt : c.number_of_childern < 12
            · simp [applyChildOp, add_child, get_child_count,
                get_conception_time, set_child_count, set_conception_time,
                hct, hlt, conception_inv_opt, conception_inv]
            · simpa [applyChildOp, add_child, get_child_count,
                get_conception_time, hct, hlt, conception_inv_opt] using h
      | remove =>
          rcases h0 : c.number_of_childern with _ | n
          · simpa [applyChildOp, remove_child, get_child_count, h0,
              conception_inv_opt] using h
          · rcases n with _ | m
            · simp [applyChildOp, remove_child, get_child_count,
                set_child_count, clear_conception_time, h0,
                conception_inv_opt, conception_inv]
            · have h' : c.conception_time = none ↔ c.number_of_childern = 0 := h
              have hct : c.conception_time ≠ none := by
                intro hc
                have := h'.mp hc
                omega
              simp [applyChildOp, remove_child, get_child_count,
                set_child_count, clear_conception_time, h0,
                conception_inv_opt, conception_inv, hct]

/-- The invariant holds along any mutation sequence. -/
theorem conception_inv_ops (ops : List ChildOp) (d : Option ChildInfo)
    (h : conception_inv_opt d) : conception_inv_opt (applyChildOps d ops) := by
  induction ops generalizing d with
  | nil => exact h
  | cons op ops ih => exact ih _ (conception_inv_step d op h)

/-- C7: starting from the default record, every record reachable through
any sequence of inbound child-count messages, user add-child and user
remove-child actions satisfies `conception_time = None ↔ child_count = 0`. -/
theorem C7_conception_iff_zero_count (ops : List ChildOp) (c : ChildInfo)
    (h : applyChildOps (some ChildInfo.default) ops = some c) :
    c.conception_time = none ↔ c.number_of_childern = 0 := by
  have hinv := conception_inv_ops ops (some ChildInfo.default)
    (by simp [conception_inv_opt, conception_inv, ChildInfo.default])
  rw [h] at hinv
  exact hinv

theorem C7_conception_iff_zero_count_witness :
    ((⟨some 5, 8, .Hours, 1⟩ : ChildInfo).conception_time = none ↔
      (⟨some 5, 8, .Hours, 1⟩ : ChildInfo).number_of_childern = 0) :=
  C7_conception_iff_zero_count [.add 5, .inbound 9 1, .add 5, .remove]
    ⟨some 5, 8, .Hours, 1⟩ (by decide)

/-- C8 (counterexample): a wire value that does not parse as `u8` does NOT
fall back to Hours — the handler's `parse::<u8>().unwrap()` panics first
(modelled by `none`), so the handler fails instead of degrading. -/
theorem C8_counterexample :
    handle_gestation_branch true "3.5" (some ChildInfo.default) = none := by
  decide

/-- C8 amended: while active, a wire value that parses as `u8` is
validated against the enum — 0..=4 map to the corresponding variant (the
round trip through the discriminant is the identity) and any other `u8`
falls back to Hours — but a value that fails to parse as `u8` panics the
handler instead of falling back. -/
theorem C8_amended_gestation_validation (s : String) (value : Nat) (c : ChildInfo) :
    (parseU8 s = some value →
      handle_gestation_branch true s (some c) =
        some (some { c with gestation := (GestationType.tryFrom value).getD .Hours })) ∧
    (value ≤ 4 → (GestationType.tryFrom value).map GestationType.toU8 = some value) ∧
    (5 ≤ value → (GestationType.tryFrom value).getD .Hours = .Hours) ∧
    (parseU8 s = none → handle_gestation_branch true s (some c) = none) := by
  refine ⟨fun hp => ?_, fun hv => ?_, fun hv => ?_, fun hp => ?_⟩
  · simp [handle_gestation_branch, hp, set_gestation_type]
  · interval_cases value <;> rfl
  · obtain ⟨n, rfl⟩ : ∃ n, value = n + 5 := ⟨value - 5, by omega⟩
    rfl
  · simp [handle_gestation_branch, hp]

theorem C8_amended_gestation_validation_witness :
    (handle_gestation_branch true "7" (some ChildInfo.default) =
      some (some ChildInfo.default)) ∧
    ((GestationType.tryFrom 3).map GestationType.toU8 = some 3) ∧
    ((GestationType.tryFrom 7).getD .Hours = .Hours) ∧
    (handle_gestation_branch true "weeks" (some ChildInfo.default) = none) :=
  ⟨(C8_amended_gestation_validation "7" 7 ChildInfo.default).1 (by decide),
   (C8_amended_gestation_validation "7" 3 ChildInfo.default).2.1 (by decide),
   (C8_amended_gestation_validation "7" 7 ChildInfo.default).2.2.1 (by decide),
   (C8_amended_gestation_validation "weeks" 0 ChildInfo.default).2.2.2 (by decide)⟩

/-! ## Claims about avatar detection -/

/-- Appending a fresh key finds the appended record. -/
theorem assocLookup_append_self (l : List (String × ChildInfo)) (k : String)
    (v : ChildInfo) (h : assocLookup k l = none) :
    assocLookup k (l ++ [(k, v)]) = some v := by
  induction l with
  | nil => simp [assocLookup]
  | cons p rest ih =>
      obtain ⟨k', v'⟩ := p
      by_cases hk : k' = k
      · simp [assocLookup, hk] at h
      · simp only [assocLookup, List.cons_append, if_neg hk] at h ⊢
        exact ih h

/-- `entry(k).or_insert(dflt)` returns the stored record (default on a
miss) and leaves the store holding that record under `k`. -/
theorem entryOrInsert_spec (s : SaveData) (k : String) (dflt : ChildInfo) :
    (s.entryOrInsert k dflt).1 = (s.lookup k).getD dflt ∧
    (s.entryOrInsert k dflt).2.lookup k = some ((s.lookup k).getD dflt) := by
  cases h : s.lookup k with
  | some c => simp [SaveData.entryOrInsert, h]
  | none =>
      refine ⟨by simp [SaveData.entryOrInsert, h], ?_⟩
      simp only [SaveData.entryOrInsert, h, Option.getD_none]
      simpa [SaveData.lookup] using
        assocLookup_append_self s.avatar_ids k dflt (by simpa [SaveData.lookup] using h)

/-- C5: when the fetched tree has the expected subtree path, detection
goes Active, loads the record for the avatar id (defaulting to zero
children and 8-hour gestation and persisting that default on a miss), and
sends gestation duration and unit, plus child count and an is-pregnant
flag exactly when the count is positive; when the path is absent it goes
Inactive, clears the record and sends nothing. -/
theorem C5_avatar_detection_sync (tree : Value) (avatar_id : String)
    (store : SaveData) :
    (json_path_exists tree "/CONTENTS/PregnancySave" = true →
      (check_avatar_oscquery tree avatar_id store).system_active = true ∧
      (check_avatar_oscquery tree avatar_id store).child_data =
        some ((store.lookup avatar_id).getD ChildInfo.default) ∧
      (check_avatar_oscquery tree avatar_id store).store.lookup avatar_id =
        some ((store.lookup avatar_id).getD ChildInfo.default) ∧
      (check_avatar_oscquery tree avatar_id store).messages =
        [("/avatar/parameters/GestationTime",
            .float ((store.lookup avatar_id).getD ChildInfo.default).gestation_time),
         ("/avatar/parameters/Gestation",
            .int (((store.lookup avatar_id).getD ChildInfo.default).gestation.toU8 : Int))] ++
        (if 0 < ((store.lookup avatar_id).getD ChildInfo.default).number_of_childern then
          [("/avatar/parameters/ChildCount",
              .int (((store.lookup avatar_id).getD ChildInfo.default).number_of_childern : Int)),
           ("/avatar/parameters/IsPregnant", .bool true)]
        else [])) ∧
    (json_path_exists tree "/CONTENTS/PregnancySave" = false →
      check_avatar_oscquery tree avatar_id store =
        ⟨false, none, store, []⟩) := by
  have hspec := entryOrInsert_spec store avatar_id ChildInfo.default
  have hdflt : (⟨none, 8, .Hours, 0⟩ : ChildInfo) = ChildInfo.default := rfl
  refine ⟨fun h => ?_, fun h => ?_⟩
  · refine ⟨by simp [check_avatar_oscquery, h], ?_, ?_, ?_⟩
    · simp [check_avatar_oscquery, h, hdflt, hspec.1]
    · simp [check_avatar_oscquery, h, hdflt, hspec.2]
    · simp [check_avatar_oscquery, h, hdflt, get_gestation_time,
        get_gestation_type, get_child_count, hspec.1]
  · simp [check_avatar_oscquery, h]

theorem C5_avatar_detection_sync_witness :
    ((check_avatar_oscquery
        (.obj [("CONTENTS", .obj [("PregnancySave", .obj [])])]) "avtr"
        ⟨[("avtr", ⟨some 3, 8, .Hours, 2⟩)]⟩).system_active = true ∧
      (check_avatar_oscquery
        (.obj [("CONTENTS", .obj [("PregnancySave", .obj [])])]) "avtr"
        ⟨[("avtr", ⟨some 3, 8, .Hours, 2⟩)]⟩).child_data =
          some ⟨some 3, 8, .Hours, 2⟩ ∧
      (check_avatar_oscquery
        (.obj [("CONTENTS", .obj [("PregnancySave", .obj [])])]) "avtr"
        ⟨[("avtr", ⟨some 3, 8, .Hours, 2⟩)]⟩).store.lookup "avtr" =
          some ⟨some 3, 8, .Hours, 2⟩ ∧
      (check_avatar_oscquery
        (.obj [("CONTENTS", .obj [("PregnancySave", .obj [])])]) "avtr"
        ⟨[("avtr", ⟨some 3, 8, .Hours, 2⟩)]⟩).messages =
          [("/avatar/parameters/GestationTime", .float 8),
           ("/avatar/parameters/Gestation", .int 0),
           ("/avatar/parameters/ChildCount", .int 2),
           ("/avatar/parameters/IsPregnant", .bool true)]) ∧
    (check_avatar_oscquery .null "avtr" ⟨[("avtr", ⟨some 3, 8, .Hours, 2⟩)]⟩ =
      ⟨false, none, ⟨[("avtr", ⟨some 3, 8, .Hours, 2⟩)]⟩, []⟩) :=
  ⟨(C5_avatar_detection_sync _ "avtr" ⟨[("avtr", ⟨some 3, 8, .Hours, 2⟩)]⟩).1
      (by decide),
   (C5_avatar_detection_sync .null "avtr" ⟨[("avtr", ⟨some 3, 8, .Hours, 2⟩)]⟩).2
      (by decide)⟩
